import Mathlib

/-!
Verification of the 2D physics/behaviour simulation core of the
bouncing-balls repository (package `physics`): ball integration and wall
bouncing (`Ball.Update`), pairwise collision detection and elastic
response (`Ball.CheckCollision`, `Ball.HandleCollision`, `Ball.shrinkBall`),
the avatar and companion boundary-keeping (`Human.keepWithinBounds`,
`Dragon.keepWithinBounds`) and the projectile hit handling
(`Human.CheckBulletCollisions`).

The embedding models the Go `float32` state with exact real arithmetic
(`ℝ`, with `Real.sqrt` for `math.Sqrt`); the visual canvas objects
(circles, lines, text, trails, explosion particles) carry no simulation
state and are omitted, as are their `Move`/`Resize`/`Refresh` calls.
Fields of the Go structs that only drive those visuals are dropped;
every field read or written by the modelled logic is kept.
-/

noncomputable section

namespace BouncingBalls

/-- State of `physics.Ball` (src/pkg/physics/ball.go): position, velocity,
radius, jiggle state, explosion state, animation flag and bounds.
Visual-only fields (`Circle`, `Iris`, `Pupil`, `BloodVeins`, `Text`,
`LLMName`, `Trail`, `TrailIndex`, `ExplosionParticles`) are omitted. -/
structure Ball where
  x : ℝ
  y : ℝ
  vx : ℝ
  vy : ℝ
  radius : ℝ
  originalRadius : ℝ
  jiggleAmplitude : ℝ
  jigglePhase : ℝ
  jiggleDecay : ℝ
  isExploding : Bool
  explosionTimer : ℤ
  isAnimated : Bool
  boundsW : ℝ
  boundsH : ℝ

/-- `Ball.triggerJiggle` (ball.go:577-580): sets the jiggle amplitude from
the impact intensity and resets the phase. -/
def Ball.triggerJiggle (b : Ball) (intensity : ℝ) : Ball :=
  { b with jiggleAmplitude := intensity * b.originalRadius * 0.8
           jigglePhase := 0 }

/-- `Ball.triggerExplosion` (ball.go:583-610): starts a 30-frame explosion
unless one is already running (particle creation is visual-only). -/
def Ball.triggerExplosion (b : Ball) : Ball :=
  if b.isExploding then b
  else { b with isExploding := true, explosionTimer := 30 }

/-- State effect of `Ball.UpdatePosition` / `UpdatePositionWithHuman`
(ball.go:227-247): the jiggle oscillation applied to `Radius`, with phase
advance and amplitude decay.  The remainder of that method only moves and
recolours canvas objects and is omitted. -/
def Ball.updatePositionState (b : Ball) : Ball :=
  if b.jiggleAmplitude > 0.01 then
    let jiggleOffset := Real.sin b.jigglePhase * b.jiggleAmplitude
    let phase := b.jigglePhase + 0.3
    let amp := b.jiggleAmplitude * b.jiggleDecay
    if amp < 0.01 then
      { b with radius := b.originalRadius, jigglePhase := phase,
               jiggleAmplitude := 0 }
    else
      { b with radius := b.originalRadius + jiggleOffset,
               jigglePhase := phase, jiggleAmplitude := amp }
  else
    { b with radius := b.originalRadius }

/-- State effect of `Ball.UpdateExplosion` (ball.go:613-659): decrement the
timer; when it reaches zero the explosion ends (particle animation is
visual-only). -/
def Ball.updateExplosion (b : Ball) : Ball :=
  if !b.isExploding then b
  else
    let t := b.explosionTimer - 1
    if t > 0 then { b with explosionTimer := t }
    else { b with explosionTimer := t, isExploding := false }

/-- Left/right wall handling block of `Ball.Update` (ball.go:329-342):
when the ball's edge reaches a side wall, negate `VX`, trigger a jiggle
from the impact velocity, and clamp `X` back inside. -/
def Ball.wallBounceX (b : Ball) : Ball :=
  if b.x - b.radius ≤ 0 ∨ b.x + b.radius ≥ b.boundsW then
    let bv : Ball := { b with vx := -b.vx }
    let bj : Ball := bv.triggerJiggle (abs bv.vx / 8)
    if bj.x - bj.radius < 0 then { bj with x := bj.radius }
    else if bj.x + bj.radius > bj.boundsW then
      { bj with x := bj.boundsW - bj.radius }
    else bj
  else b

/-- Top/bottom wall handling block of `Ball.Update` (ball.go:345-357): the
walls sit at `y = 50` and `y = Height - 50` to account for the button
area. -/
def Ball.wallBounceY (b : Ball) : Ball :=
  if b.y - b.radius ≤ 50 ∨ b.y + b.radius ≥ b.boundsH - 50 then
    let bv : Ball := { b with vy := -b.vy }
    let bj : Ball := bv.triggerJiggle (abs bv.vy / 8)
    if bj.y - bj.radius < 50 then { bj with y := 50 + bj.radius }
    else if bj.y + bj.radius > bj.boundsH - 50 then
      { bj with y := bj.boundsH - 50 - bj.radius }
    else bj
  else b

/-- `Ball.Update` (ball.go:319-365): integrate position by velocity, then
handle the left/right walls, then the top/bottom walls, then apply the
jiggle/visual state update and the explosion timer. -/
def Ball.update (b : Ball) : Ball :=
  if !b.isAnimated then b
  else
    let b1 : Ball := { b with x := b.x + b.vx, y := b.y + b.vy }
    let b4 := b1.wallBounceX.wallBounceY.updatePositionState
    if b4.isExploding then b4.updateExplosion else b4

/-- State of `physics.Human` (src/pkg/physics/human.go) restricted to the
fields read by `keepWithinBounds`: position, size and bounds. -/
structure Human where
  x : ℝ
  y : ℝ
  size : ℝ
  boundsW : ℝ
  boundsH : ℝ

/-- `Human.keepWithinBounds` (human.go:574-590): wrap-around on the
horizontal axis (off the left edge reappears at `Width + margin`, and
vice versa), clamping on the vertical axis. -/
def Human.keepWithinBounds (h : Human) : Human :=
  let margin := h.size * 0.5
  let h1 : Human :=
    if h.x < -margin then { h with x := h.boundsW + margin }
    else if h.x > h.boundsW + margin then { h with x := -margin }
    else h
  if h1.y < margin then { h1 with y := margin }
  else if h1.y > h1.boundsH - margin then { h1 with y := h1.boundsH - margin }
  else h1

/-- State of `physics.Dragon` (src/pkg/physics/dragon.go) restricted to the
fields read by `keepWithinBounds`: position, velocity, size and bounds. -/
structure Dragon where
  x : ℝ
  y : ℝ
  vx : ℝ
  vy : ℝ
  size : ℝ
  boundsW : ℝ
  boundsH : ℝ

/-- `Dragon.keepWithinBounds` (dragon.go:521-545): on each axis, clamp the
position to the margin-inset boundary (with the 50-pixel top/bottom
insets) and, when the velocity still points at the crossed wall, replace
it by its negation scaled by `0.5`. -/
def Dragon.keepWithinBounds (d : Dragon) : Dragon :=
  let margin := d.size * 0.5
  let d1 : Dragon :=
    if d.x < margin then
      let dc : Dragon := { d with x := margin }
      if dc.vx < 0 then { dc with vx := -dc.vx * 0.5 } else dc
    else if d.x > d.boundsW - margin then
      let dc : Dragon := { d with x := d.boundsW - margin }
      if dc.vx > 0 then { dc with vx := -dc.vx * 0.5 } else dc
    else d
  if d1.y < 50 + margin then
    let dc : Dragon := { d1 with y := 50 + margin }
    if dc.vy < 0 then { dc with vy := -dc.vy * 0.5 } else dc
  else if d1.y > d1.boundsH - 50 - margin then
    let dc : Dragon := { d1 with y := d1.boundsH - 50 - margin }
    if dc.vy > 0 then { dc with vy := -dc.vy * 0.5 } else dc
  else d1

/-- `Ball.CheckCollision` (ball.go:368-380): collision iff the euclidean
distance between centers is strictly below the sum of the radii.  The
`b == other` guard in the Go code compares pointers (aliasing), which has
no counterpart for value records; the predicate models the call on two
distinct balls.  The function reads both balls and writes nothing, so the
embedding is a pure predicate by construction. -/
def Ball.checkCollision (b other : Ball) : Prop :=
  Real.sqrt ((b.x - other.x) * (b.x - other.x) +
      (b.y - other.y) * (b.y - other.y)) <
    b.radius + other.radius

/-- `Ball.GetMass` (ball.go:383-385): mass from the area, `π r²`. -/
def Ball.getMass (b : Ball) : ℝ :=
  Real.pi * b.radius * b.radius

/-- Collision geometry of `Ball.HandleCollision` (ball.go:393-402): the
difference vector `(dx, dy)` and the center distance, where the
zero-distance guard replaces `dx` and the distance by `1` (a synthetic
non-zero separation vector), leaving `dy` alone. -/
def Ball.collisionGeometry (b other : Ball) : ℝ × ℝ × ℝ :=
  let dx := b.x - other.x
  let dy := b.y - other.y
  let distance := Real.sqrt (dx * dx + dy * dy)
  if distance = 0 then (1, dy, 1) else (dx, dy, distance)

/-- Normalized collision vector of `Ball.HandleCollision` (ball.go:404-406). -/
def Ball.collisionNormal (b other : Ball) : ℝ × ℝ :=
  let g := b.collisionGeometry other
  (g.1 / g.2.2, g.2.1 / g.2.2)

/-- Overlap separation step of `Ball.HandleCollision` (ball.go:408-421):
move the balls apart along the collision normal, proportioned by the
other body's mass share, so heavier balls move less. -/
def Ball.separate (b other : Ball) : Ball × Ball :=
  let n := b.collisionNormal other
  let overlap := (b.radius + other.radius) - (b.collisionGeometry other).2.2
  let m1 := b.getMass
  let m2 := other.getMass
  let totalMass := m1 + m2
  let separationRatio1 := m2 / totalMass
  let separationRatio2 := m1 / totalMass
  ({ b with x := b.x + n.1 * overlap * separationRatio1
            y := b.y + n.2 * overlap * separationRatio1 },
   { other with x := other.x - n.1 * overlap * separationRatio2
                y := other.y - n.2 * overlap * separationRatio2 })

/-- Velocity components along the collision normal (ball.go:424-425). -/
def Ball.normalVelocities (b other : Ball) : ℝ × ℝ :=
  let n := b.collisionNormal other
  (b.vx * n.1 + b.vy * n.2, other.vx * n.1 + other.vy * n.2)

/-- Relative normal velocity `v1n - v2n` tested by the separating-bodies
skip (ball.go:434). -/
def Ball.relNormalVelocity (b other : Ball) : ℝ :=
  (b.normalVelocities other).1 - (b.normalVelocities other).2

/-- The 1D elastic exchange along the normal recombined with the unchanged
tangential components (ball.go:438-448), before the damping
multiplication: the velocities the two balls receive in the undamped
(`d = 1`) case. -/
def Ball.collisionVelocities (b other : Ball) : (ℝ × ℝ) × (ℝ × ℝ) :=
  let n := b.collisionNormal other
  let v := b.normalVelocities other
  let v1n := v.1
  let v2n := v.2
  let v1px := b.vx - v1n * n.1
  let v1py := b.vy - v1n * n.2
  let v2px := other.vx - v2n * n.1
  let v2py := other.vy - v2n * n.2
  let m1 := b.getMass
  let m2 := other.getMass
  let v1nNew := ((m1 - m2) / (m1 + m2)) * v1n + ((2 * m2) / (m1 + m2)) * v2n
  let v2nNew := ((m2 - m1) / (m1 + m2)) * v2n + ((2 * m1) / (m1 + m2)) * v1n
  ((v1nNew * n.1 + v1px, v1nNew * n.2 + v1py),
   (v2nNew * n.1 + v2px, v2nNew * n.2 + v2py))

/-- `Ball.shrinkBall` (ball.go:662-704): scale the radius (and original
radius) by `factor`, flooring the result at the 35-pixel minimum; the
state is only written when the resulting radius differs from the current
one (the remainder of the method resizes canvas objects). -/
def Ball.shrinkBall (b : Ball) (factor : ℝ) : Ball :=
  let newRadius := b.radius * factor
  let newOriginalRadius := b.originalRadius * factor
  let minRadius : ℝ := 35
  let newRadius2 := if newRadius < minRadius then minRadius else newRadius
  let newOriginalRadius2 :=
    if newRadius < minRadius then minRadius else newOriginalRadius
  if newRadius2 ≠ b.radius then
    { b with radius := newRadius2, originalRadius := newOriginalRadius2 }
  else b

/-- `Ball.HandleCollision` (ball.go:388-469): separate the overlapping
balls, skip resolution when the bodies are separating, otherwise apply
the mass-weighted elastic exchange, multiply both velocities by the
damping factor `0.98`, trigger jiggles and explosions on both balls, and
shrink both by 20%. -/
def Ball.handleCollision (b other : Ball) : Ball × Ball :=
  let p := b.separate other
  if b.relNormalVelocity other > 0 then p
  else
    let w := b.collisionVelocities other
    let dampening : ℝ := 0.98
    let b2 : Ball := { p.1 with vx := w.1.1 * dampening, vy := w.1.2 * dampening }
    let o2 : Ball := { p.2 with vx := w.2.1 * dampening, vy := w.2.2 * dampening }
    let v := b.normalVelocities other
    let collisionIntensity := Real.sqrt (v.1 * v.1 + v.2 * v.2) / 12
    let b3 := (b2.triggerJiggle collisionIntensity).triggerExplosion
    let o3 := (o2.triggerJiggle collisionIntensity).triggerExplosion
    (b3.shrinkBall 0.8, o3.shrinkBall 0.8)

/-- State of `physics.Bullet` (human.go:12-17): position, velocity and the
active flag (the `Visual` canvas circle is omitted). -/
structure Bullet where
  x : ℝ
  y : ℝ
  vx : ℝ
  vy : ℝ
  isActive : Bool

/-- Hit test of `Human.CheckBulletCollisions` (human.go:957-962): the
bullet's effective collision radius is 8. -/
def bulletHits (bullet : Bullet) (ball : Ball) : Prop :=
  Real.sqrt ((bullet.x - ball.x) * (bullet.x - ball.x) +
      (bullet.y - ball.y) * (bullet.y - ball.y)) <
    ball.radius + 8

/-- Hit handling of `Human.CheckBulletCollisions` (human.go:963-989) for
one bullet-ball pair: deactivate the bullet; when the center distance is
positive, add the repulsion impulse (directed away from the bullet),
clamp the resulting speed to the maximum of 8, and trigger a jiggle. -/
def resolveBulletHit (bullet : Bullet) (ball : Ball) : Bullet × Ball :=
  let bullet2 : Bullet := { bullet with isActive := false }
  let dx := bullet.x - ball.x
  let dy := bullet.y - ball.y
  let distance := Real.sqrt (dx * dx + dy * dy)
  if distance > 0 then
    let repelX := -dx / distance
    let repelY := -dy / distance
    let repulsionStrength : ℝ := 0.8
    let vx1 := ball.vx + repelX * repulsionStrength
    let vy1 := ball.vy + repelY * repulsionStrength
    let maxSpeed : ℝ := 8
    let currentSpeed := Real.sqrt (vx1 * vx1 + vy1 * vy1)
    let ball2 : Ball :=
      if currentSpeed > maxSpeed then
        { ball with vx := vx1 / currentSpeed * maxSpeed
                    vy := vy1 / currentSpeed * maxSpeed }
      else { ball with vx := vx1, vy := vy1 }
    (bullet2, ball2.triggerJiggle 0.3)
  else (bullet2, ball)

/-- The jiggle/visual state update does not move the ball. -/
lemma Ball.updatePositionState_x (b : Ball) : b.updatePositionState.x = b.x := by
  simp only [Ball.updatePositionState]
  split_ifs <;> rfl

/-- The jiggle/visual state update does not move the ball. -/
lemma Ball.updatePositionState_y (b : Ball) : b.updatePositionState.y = b.y := by
  simp only [Ball.updatePositionState]
  split_ifs <;> rfl

/-- The explosion timer update does not move the ball. -/
lemma Ball.updateExplosion_x (b : Ball) : b.updateExplosion.x = b.x := by
  simp only [Ball.updateExplosion]
  split_ifs <;> rfl

/-- The explosion timer update does not move the ball. -/
lemma Ball.updateExplosion_y (b : Ball) : b.updateExplosion.y = b.y := by
  simp only [Ball.updateExplosion]
  split_ifs <;> rfl

/-- Horizontal wall handling leaves `y`, `radius` and the bounds alone. -/
lemma Ball.wallBounceX_y (b : Ball) : b.wallBounceX.y = b.y := by
  simp only [Ball.wallBounceX, Ball.triggerJiggle]
  split_ifs <;> rfl

/-- Vertical wall handling leaves `x`, `radius` and the bounds alone. -/
lemma Ball.wallBounceY_x (b : Ball) : b.wallBounceY.x = b.x := by
  simp only [Ball.wallBounceY, Ball.triggerJiggle]
  split_ifs <;> rfl

/-- Horizontal wall handling does not change the radius. -/
lemma Ball.wallBounceX_radius (b : Ball) : b.wallBounceX.radius = b.radius := by
  simp only [Ball.wallBounceX, Ball.triggerJiggle]
  split_ifs <;> rfl

/-- Horizontal wall handling does not change the bounds. -/
lemma Ball.wallBounceX_boundsH (b : Ball) :
    b.wallBounceX.boundsH = b.boundsH := by
  simp only [Ball.wallBounceX, Ball.triggerJiggle]
  split_ifs <;> rfl

/-- After the horizontal wall handling, the x coordinate of a ball that
fits the arena lies in `[radius, width - radius]`. -/
lemma Ball.wallBounceX_x_mem (b : Ball) (h2 : 2 * b.radius ≤ b.boundsW) :
    b.radius ≤ b.wallBounceX.x ∧ b.wallBounceX.x ≤ b.boundsW - b.radius := by
  simp only [Ball.wallBounceX, Ball.triggerJiggle]
  split_ifs <;> (constructor <;> simp_all <;> linarith)

/-- After the vertical wall handling, the y coordinate of a ball that fits
the arena lies in `[50 + radius, height - 50 - radius]`. -/
lemma Ball.wallBounceY_y_mem (b : Ball) (h2 : 100 + 2 * b.radius ≤ b.boundsH) :
    50 + b.radius ≤ b.wallBounceY.y ∧
      b.wallBounceY.y ≤ b.boundsH - 50 - b.radius := by
  simp only [Ball.wallBounceY, Ball.triggerJiggle]
  split_ifs <;> (constructor <;> simp_all <;> linarith)

/-- Positions after `Ball.update` are the positions after the two wall
handling blocks; the trailing jiggle/explosion updates do not move the
ball. -/
lemma Ball.update_pos (b : Ball) (hba : b.isAnimated = true) :
    b.update.x =
        (Ball.wallBounceX { b with x := b.x + b.vx, y := b.y + b.vy }).x ∧
      b.update.y =
        (Ball.wallBounceY
          (Ball.wallBounceX { b with x := b.x + b.vx, y := b.y + b.vy })).y := by
  simp only [Ball.update, hba, Bool.not_true, Bool.false_eq_true, if_false]
  constructor
  · split_ifs <;>
      simp [Ball.updateExplosion_x, Ball.updatePositionState_x,
        Ball.wallBounceY_x]
  · split_ifs <;>
      simp [Ball.updateExplosion_y, Ball.updatePositionState_y]

/-- After the wall handling of `Ball.Update`, the x coordinate of an
animated ball lies in `[radius, width - radius]`. -/
lemma Ball.update_x_mem (b : Ball) (hba : b.isAnimated = true)
    (h2 : 2 * b.radius ≤ b.boundsW) :
    b.radius ≤ b.update.x ∧ b.update.x ≤ b.boundsW - b.radius := by
  rw [(b.update_pos hba).1]
  exact Ball.wallBounceX_x_mem { b with x := b.x + b.vx, y := b.y + b.vy } h2

/-- After the wall handling of `Ball.Update`, the y coordinate of an
animated ball lies in `[50 + radius, height - 50 - radius]`. -/
lemma Ball.update_y_mem (b : Ball) (hba : b.isAnimated = true)
    (h2 : 100 + 2 * b.radius ≤ b.boundsH) :
    50 + b.radius ≤ b.update.y ∧ b.update.y ≤ b.boundsH - 50 - b.radius := by
  rw [(b.update_pos hba).2]
  have h3 :=
    Ball.wallBounceY_y_mem
      (Ball.wallBounceX { b with x := b.x + b.vx, y := b.y + b.vy })
      (by rw [Ball.wallBounceX_radius, Ball.wallBounceX_boundsH]; exact h2)
  rwa [Ball.wallBounceX_radius, Ball.wallBounceX_boundsH] at h3

/-- C1, counterexample: the human avatar's bounds enforcement does not keep
it inside `[0, bounds]` on the horizontal axis.  A human of size 10 at
`x = -10` (off the left edge, bounds 800×600) is wrapped to
`x = 805 > 800 = boundsW`. -/
theorem c1_counterexample :
    (Human.keepWithinBounds ⟨-10, 300, 10, 800, 600⟩).boundsW <
      (Human.keepWithinBounds ⟨-10, 300, 10, 800, 600⟩).x := by
  norm_num [Human.keepWithinBounds]

/-- C1, amended: after bounds enforcement, every animated ball whose radius
fits the arena stays within `[0, bounds]` on both axes, and the human
avatar is clamped within `[0, height]` vertically; horizontally the human
wraps around and is only guaranteed to lie in
`[-size/2, width + size/2]`, which may fall outside `[0, width]`. -/
theorem c1_amended (b : Ball) (hum : Human)
    (hba : b.isAnimated = true) (hbr : 0 ≤ b.radius)
    (hbw : 2 * b.radius ≤ b.boundsW) (hbh : 100 + 2 * b.radius ≤ b.boundsH)
    (hhs : 0 ≤ hum.size) (hhh : hum.size ≤ hum.boundsH)
    (hhw : 0 ≤ hum.boundsW) :
    (0 ≤ b.update.x ∧ b.update.x ≤ b.boundsW ∧
      0 ≤ b.update.y ∧ b.update.y ≤ b.boundsH) ∧
    (0 ≤ hum.keepWithinBounds.y ∧ hum.keepWithinBounds.y ≤ hum.boundsH ∧
      -(hum.size * 0.5) ≤ hum.keepWithinBounds.x ∧
      hum.keepWithinBounds.x ≤ hum.boundsW + hum.size * 0.5) := by
  constructor
  · obtain ⟨hx1, hx2⟩ := b.update_x_mem hba hbw
    obtain ⟨hy1, hy2⟩ := b.update_y_mem hba hbh
    refine ⟨by linarith, by linarith, by linarith, by linarith⟩
  · refine ⟨?_, ?_, ?_, ?_⟩ <;>
      (simp only [Human.keepWithinBounds]
       split_ifs <;> simp_all <;> linarith)

/-- C1, witness for the amended theorem: a concrete animated ball and a
concrete human satisfying the fit hypotheses. -/
theorem c1_witness :
    (0 ≤ (Ball.update ⟨100, 100, 3.5, 2.8, 30, 30, 0, 0, 0.88, false, 0,
        true, 800, 600⟩).x ∧
      (Ball.update ⟨100, 100, 3.5, 2.8, 30, 30, 0, 0, 0.88, false, 0,
        true, 800, 600⟩).x ≤ (800 : ℝ) ∧
      0 ≤ (Ball.update ⟨100, 100, 3.5, 2.8, 30, 30, 0, 0, 0.88, false, 0,
        true, 800, 600⟩).y ∧
      (Ball.update ⟨100, 100, 3.5, 2.8, 30, 30, 0, 0, 0.88, false, 0,
        true, 800, 600⟩).y ≤ (600 : ℝ)) ∧
    (0 ≤ (Human.keepWithinBounds ⟨400, 300, 10, 800, 600⟩).y ∧
      (Human.keepWithinBounds ⟨400, 300, 10, 800, 600⟩).y ≤ (600 : ℝ) ∧
      -(10 * (0.5 : ℝ)) ≤ (Human.keepWithinBounds ⟨400, 300, 10, 800, 600⟩).x ∧
      (Human.keepWithinBounds ⟨400, 300, 10, 800, 600⟩).x ≤
        (800 : ℝ) + 10 * 0.5) :=
  c1_amended ⟨100, 100, 3.5, 2.8, 30, 30, 0, 0, 0.88, false, 0, true, 800, 600⟩
    ⟨400, 300, 10, 800, 600⟩ rfl (by norm_num) (by norm_num) (by norm_num)
    (by norm_num) (by norm_num) (by norm_num)

/-- C2, counterexample: the dragon's wall bounce is not elastic.  A dragon
of size 10 at `x = 0` (past the left margin 5) with `vx = -4` gets its
velocity set to `-vx * 0.5 = 2`, not the negation `4`. -/
theorem c2_counterexample :
    (Dragon.keepWithinBounds ⟨0, 300, -4, 0, 10, 800, 600⟩).x = 5 ∧
      (Dragon.keepWithinBounds ⟨0, 300, -4, 0, 10, 800, 600⟩).vx = 2 ∧
      (Dragon.keepWithinBounds ⟨0, 300, -4, 0, 10, 800, 600⟩).vx ≠
        -(Dragon.mk 0 300 (-4) 0 10 800 600).vx := by
  norm_num [Dragon.keepWithinBounds]

/-- C2, amended: the companion's boundary keeping is a damped bounce, not
an elastic one: whenever the dragon has crossed a wall, its position is
clamped to that margin-inset boundary (with the 50-pixel top/bottom
insets), and when its velocity still points at the crossed wall the
velocity component is negated and scaled by `0.5`. -/
theorem c2_amended (d : Dragon) :
    (d.x < d.size * 0.5 ∧ d.vx < 0 →
      d.keepWithinBounds.x = d.size * 0.5 ∧
        d.keepWithinBounds.vx = -d.vx * 0.5) ∧
    (d.size * 0.5 ≤ d.x ∧ d.boundsW - d.size * 0.5 < d.x ∧ 0 < d.vx →
      d.keepWithinBounds.x = d.boundsW - d.size * 0.5 ∧
        d.keepWithinBounds.vx = -d.vx * 0.5) ∧
    (d.y < 50 + d.size * 0.5 ∧ d.vy < 0 →
      d.keepWithinBounds.y = 50 + d.size * 0.5 ∧
        d.keepWithinBounds.vy = -d.vy * 0.5) ∧
    (50 + d.size * 0.5 ≤ d.y ∧ d.boundsH - 50 - d.size * 0.5 < d.y ∧
        0 < d.vy →
      d.keepWithinBounds.y = d.boundsH - 50 - d.size * 0.5 ∧
        d.keepWithinBounds.vy = -d.vy * 0.5) := by
  simp only [Dragon.keepWithinBounds]
  split_ifs <;> simp_all

/-- C2, witness for the amended theorem: a concrete dragon past the left
wall and moving toward it is clamped and has its velocity halved and
negated. -/
theorem c2_witness :
    (Dragon.keepWithinBounds ⟨0, 300, -4, 0, 10, 800, 600⟩).x =
        (Dragon.mk 0 300 (-4) 0 10 800 600).size * 0.5 ∧
      (Dragon.keepWithinBounds ⟨0, 300, -4, 0, 10, 800, 600⟩).vx =
        -(Dragon.mk 0 300 (-4) 0 10 800 600).vx * 0.5 :=
  (c2_amended ⟨0, 300, -4, 0, 10, 800, 600⟩).1 (by norm_num)

/-- Starting an explosion does not move the ball. -/
lemma Ball.triggerExplosion_x (b : Ball) : b.triggerExplosion.x = b.x := by
  simp only [Ball.triggerExplosion]
  split_ifs <;> rfl

/-- Starting an explosion does not move the ball. -/
lemma Ball.triggerExplosion_y (b : Ball) : b.triggerExplosion.y = b.y := by
  simp only [Ball.triggerExplosion]
  split_ifs <;> rfl

/-- Starting an explosion does not change the radius. -/
lemma Ball.triggerExplosion_radius (b : Ball) :
    b.triggerExplosion.radius = b.radius := by
  simp only [Ball.triggerExplosion]
  split_ifs <;> rfl

/-- Shrinking does not move the ball. -/
lemma Ball.shrinkBall_x (b : Ball) (f : ℝ) : (b.shrinkBall f).x = b.x := by
  simp only [Ball.shrinkBall]
  split_ifs <;> rfl

/-- Shrinking does not move the ball. -/
lemma Ball.shrinkBall_y (b : Ball) (f : ℝ) : (b.shrinkBall f).y = b.y := by
  simp only [Ball.shrinkBall]
  split_ifs <;> rfl

/-- The radius after `shrinkBall` is the scaled radius floored at the
35-pixel minimum (the write guard cannot change this value). -/
lemma Ball.shrinkBall_radius (b : Ball) (f : ℝ) :
    (b.shrinkBall f).radius =
      if b.radius * f < 35 then 35 else b.radius * f := by
  simp only [Ball.shrinkBall]
  split_ifs <;> simp_all

/-- Positions after `Ball.HandleCollision` are the positions produced by
the separation step, in both branches. -/
lemma Ball.handleCollision_pos (b other : Ball) :
    (b.handleCollision other).1.x = (b.separate other).1.x ∧
      (b.handleCollision other).1.y = (b.separate other).1.y ∧
      (b.handleCollision other).2.x = (b.separate other).2.x ∧
      (b.handleCollision other).2.y = (b.separate other).2.y := by
  simp only [Ball.handleCollision]
  split_ifs <;>
    simp [Ball.shrinkBall_x, Ball.shrinkBall_y, Ball.triggerExplosion_x,
      Ball.triggerExplosion_y, Ball.triggerJiggle]

/-- When the collision is actually resolved (not skipped as separating),
both radii end as the 20%-scaled radius floored at 35. -/
lemma Ball.handleCollision_radius (b other : Ball)
    (h : ¬ b.relNormalVelocity other > 0) :
    (b.handleCollision other).1.radius =
        (if b.radius * 0.8 < 35 then (35 : ℝ) else b.radius * 0.8) ∧
      (b.handleCollision other).2.radius =
        (if other.radius * 0.8 < 35 then (35 : ℝ) else other.radius * 0.8) := by
  simp only [Ball.handleCollision, if_neg h]
  constructor <;>
    (rw [Ball.shrinkBall_radius]
     simp [Ball.triggerExplosion_radius, Ball.triggerJiggle, Ball.separate])

/-- C8: collision detection holds exactly when the squared center distance
is below the squared radius sum (the euclidean-distance reading of
`distance < r₁ + r₂`), and it is symmetric.  Purity is by construction:
`Ball.CheckCollision` reads both balls and writes nothing. -/
theorem c8_checkCollision (a b : Ball) (h : 0 ≤ a.radius + b.radius) :
    (a.checkCollision b ↔ b.checkCollision a) ∧
      (a.checkCollision b ↔
        (a.x - b.x) ^ 2 + (a.y - b.y) ^ 2 < (a.radius + b.radius) ^ 2) := by
  constructor
  · simp only [Ball.checkCollision]
    rw [show (a.x - b.x) * (a.x - b.x) + (a.y - b.y) * (a.y - b.y) =
        (b.x - a.x) * (b.x - a.x) + (b.y - a.y) * (b.y - a.y) by ring,
      add_comm a.radius]
  · simp only [Ball.checkCollision]
    rcases eq_or_lt_of_le h with h0 | h0
    · have h1 := Real.sqrt_nonneg
        ((a.x - b.x) * (a.x - b.x) + (a.y - b.y) * (a.y - b.y))
      constructor <;> intro h2 <;>
        nlinarith [sq_nonneg (a.x - b.x), sq_nonneg (a.y - b.y)]
    · rw [Real.sqrt_lt' h0,
        show (a.x - b.x) * (a.x - b.x) + (a.y - b.y) * (a.y - b.y) =
          (a.x - b.x) ^ 2 + (a.y - b.y) ^ 2 by ring]

/-- C8, witness: two radius-30 balls with centers 40 apart collide, and
the symmetric and squared-distance readings agree on them. -/
theorem c8_witness :
    (0 : ℝ) ≤ (Ball.mk 0 0 0 0 30 30 0 0 0.88 false 0 true 800 600).radius +
        (Ball.mk 40 0 0 0 30 30 0 0 0.88 false 0 true 800 600).radius ∧
      ((Ball.checkCollision ⟨0, 0, 0, 0, 30, 30, 0, 0, 0.88, false, 0, true, 800, 600⟩
          ⟨40, 0, 0, 0, 30, 30, 0, 0, 0.88, false, 0, true, 800, 600⟩ ↔
        Ball.checkCollision ⟨40, 0, 0, 0, 30, 30, 0, 0, 0.88, false, 0, true, 800, 600⟩
          ⟨0, 0, 0, 0, 30, 30, 0, 0, 0.88, false, 0, true, 800, 600⟩) ∧
      (Ball.checkCollision ⟨0, 0, 0, 0, 30, 30, 0, 0, 0.88, false, 0, true, 800, 600⟩
          ⟨40, 0, 0, 0, 30, 30, 0, 0, 0.88, false, 0, true, 800, 600⟩ ↔
        ((0 : ℝ) - 40) ^ 2 + ((0 : ℝ) - 0) ^ 2 < ((30 : ℝ) + 30) ^ 2)) :=
  ⟨by norm_num,
    c8_checkCollision ⟨0, 0, 0, 0, 30, 30, 0, 0, 0.88, false, 0, true, 800, 600⟩
      ⟨40, 0, 0, 0, 30, 30, 0, 0, 0.88, false, 0, true, 800, 600⟩ (by norm_num)⟩

/-- C3: the elastic exchange step of `Ball.HandleCollision` (before the
damping multiplication) conserves total momentum `m₁v₁ + m₂v₂` exactly,
on both axes, whenever the total mass is non-zero. -/
theorem c3_momentum_conservation (b other : Ball)
    (hm : b.getMass + other.getMass ≠ 0) :
    b.getMass * (b.collisionVelocities other).1.1 +
        other.getMass * (b.collisionVelocities other).2.1 =
      b.getMass * b.vx + other.getMass * other.vx ∧
    b.getMass * (b.collisionVelocities other).1.2 +
        other.getMass * (b.collisionVelocities other).2.2 =
      b.getMass * b.vy + other.getMass * other.vy := by
  simp only [Ball.collisionVelocities, Ball.normalVelocities]
  constructor <;> (field_simp; ring)

/-- C3, witness: two concrete radius-30 balls with non-zero total mass. -/
theorem c3_witness :
    Ball.getMass ⟨100, 100, 5, 0, 30, 30, 0, 0, 0.88, false, 0, true, 800, 600⟩ +
        Ball.getMass ⟨160, 100, -5, 0, 30, 30, 0, 0, 0.88, false, 0, true, 800, 600⟩ ≠ 0 ∧
      (Ball.getMass ⟨100, 100, 5, 0, 30, 30, 0, 0, 0.88, false, 0, true, 800, 600⟩ *
            (Ball.collisionVelocities
              ⟨100, 100, 5, 0, 30, 30, 0, 0, 0.88, false, 0, true, 800, 600⟩
              ⟨160, 100, -5, 0, 30, 30, 0, 0, 0.88, false, 0, true, 800, 600⟩).1.1 +
          Ball.getMass ⟨160, 100, -5, 0, 30, 30, 0, 0, 0.88, false, 0, true, 800, 600⟩ *
            (Ball.collisionVelocities
              ⟨100, 100, 5, 0, 30, 30, 0, 0, 0.88, false, 0, true, 800, 600⟩
              ⟨160, 100, -5, 0, 30, 30, 0, 0, 0.88, false, 0, true, 800, 600⟩).2.1 =
        Ball.getMass ⟨100, 100, 5, 0, 30, 30, 0, 0, 0.88, false, 0, true, 800, 600⟩ * 5 +
          Ball.getMass ⟨160, 100, -5, 0, 30, 30, 0, 0, 0.88, false, 0, true, 800, 600⟩ * (-5) ∧
      Ball.getMass ⟨100, 100, 5, 0, 30, 30, 0, 0, 0.88, false, 0, true, 800, 600⟩ *
            (Ball.collisionVelocities
              ⟨100, 100, 5, 0, 30, 30, 0, 0, 0.88, false, 0, true, 800, 600⟩
              ⟨160, 100, -5, 0, 30, 30, 0, 0, 0.88, false, 0, true, 800, 600⟩).1.2 +
          Ball.getMass ⟨160, 100, -5, 0, 30, 30, 0, 0, 0.88, false, 0, true, 800, 600⟩ *
            (Ball.collisionVelocities
              ⟨100, 100, 5, 0, 30, 30, 0, 0, 0.88, false, 0, true, 800, 600⟩
              ⟨160, 100, -5, 0, 30, 30, 0, 0, 0.88, false, 0, true, 800, 600⟩).2.2 =
        Ball.getMass ⟨100, 100, 5, 0, 30, 30, 0, 0, 0.88, false, 0, true, 800, 600⟩ * 0 +
          Ball.getMass ⟨160, 100, -5, 0, 30, 30, 0, 0, 0.88, false, 0, true, 800, 600⟩ * 0) :=
  ⟨by simp only [Ball.getMass]; positivity,
    c3_momentum_conservation
      ⟨100, 100, 5, 0, 30, 30, 0, 0, 0.88, false, 0, true, 800, 600⟩
      ⟨160, 100, -5, 0, 30, 30, 0, 0, 0.88, false, 0, true, 800, 600⟩
      (by simp only [Ball.getMass]; positivity)⟩

/-- C6: for exactly coincident balls, `Ball.HandleCollision` replaces the
zero difference vector by the synthetic `(1, 0)` with distance `1` — the
divisor of the normal computation is the constant `1`, so no division by
zero occurs, and the separation step then genuinely moves the centers
apart to distance `r₁ + r₂ - 1` along the x-axis. -/
theorem c6_zero_distance (b other : Ball) (hx : b.x = other.x)
    (hy : b.y = other.y) (hm : b.getMass + other.getMass ≠ 0) :
    b.collisionGeometry other = (1, 0, 1) ∧
      (b.separate other).1.x - (b.separate other).2.x =
        b.radius + other.radius - 1 ∧
      (b.separate other).1.y - (b.separate other).2.y = 0 := by
  have hg : b.collisionGeometry other = (1, 0, 1) := by
    simp only [Ball.collisionGeometry, hx, hy, sub_self]
    rw [if_pos (by norm_num [Real.sqrt_zero])]
  refine ⟨hg, ?_, ?_⟩ <;>
    (simp only [Ball.separate, Ball.collisionNormal, hg, hx, hy]
     field_simp
     try ring)

/-- C6, witness: two concrete coincident radius-30 balls. -/
theorem c6_witness :
    (Ball.collisionGeometry
        ⟨100, 100, 5, 0, 30, 30, 0, 0, 0.88, false, 0, true, 800, 600⟩
        ⟨100, 100, -5, 0, 30, 30, 0, 0, 0.88, false, 0, true, 800, 600⟩ =
        (1, 0, 1)) ∧
      ((Ball.separate ⟨100, 100, 5, 0, 30, 30, 0, 0, 0.88, false, 0, true, 800, 600⟩
            ⟨100, 100, -5, 0, 30, 30, 0, 0, 0.88, false, 0, true, 800, 600⟩).1.x -
          (Ball.separate ⟨100, 100, 5, 0, 30, 30, 0, 0, 0.88, false, 0, true, 800, 600⟩
            ⟨100, 100, -5, 0, 30, 30, 0, 0, 0.88, false, 0, true, 800, 600⟩).2.x =
        (30 : ℝ) + 30 - 1) ∧
      ((Ball.separate ⟨100, 100, 5, 0, 30, 30, 0, 0, 0.88, false, 0, true, 800, 600⟩
            ⟨100, 100, -5, 0, 30, 30, 0, 0, 0.88, false, 0, true, 800, 600⟩).1.y -
          (Ball.separate ⟨100, 100, 5, 0, 30, 30, 0, 0, 0.88, false, 0, true, 800, 600⟩
            ⟨100, 100, -5, 0, 30, 30, 0, 0, 0.88, false, 0, true, 800, 600⟩).2.y = 0) :=
  c6_zero_distance
    ⟨100, 100, 5, 0, 30, 30, 0, 0, 0.88, false, 0, true, 800, 600⟩
    ⟨100, 100, -5, 0, 30, 30, 0, 0, 0.88, false, 0, true, 800, 600⟩
    rfl rfl (by simp only [Ball.getMass]; positivity)

/-- C7: when the relative normal velocity indicates separating bodies,
`Ball.HandleCollision` skips resolution: both velocities, both radii, the
jiggle state and the explosion state are left exactly as they were (only
the already-performed overlap separation of the positions remains). -/
theorem c7_separating_skip (b other : Ball)
    (h : b.relNormalVelocity other > 0) :
    (b.handleCollision other).1.vx = b.vx ∧
      (b.handleCollision other).1.vy = b.vy ∧
      (b.handleCollision other).2.vx = other.vx ∧
      (b.handleCollision other).2.vy = other.vy ∧
      (b.handleCollision other).1.radius = b.radius ∧
      (b.handleCollision other).2.radius = other.radius ∧
      (b.handleCollision other).1.jiggleAmplitude = b.jiggleAmplitude ∧
      (b.handleCollision other).2.jiggleAmplitude = other.jiggleAmplitude ∧
      (b.handleCollision other).1.isExploding = b.isExploding ∧
      (b.handleCollision other).2.isExploding = other.isExploding := by
  simp [Ball.handleCollision, if_pos h, Ball.separate]

/-- C7, witness: two touching radius-30 balls moving apart from each other
(relative normal velocity `10 > 0`) are left with their velocities,
radii, jiggle and explosion state unchanged. -/
theorem c7_witness :
    Ball.relNormalVelocity
        ⟨100, 100, -5, 0, 30, 30, 0, 0, 0.88, false, 0, true, 800, 600⟩
        ⟨160, 100, 5, 0, 30, 30, 0, 0, 0.88, false, 0, true, 800, 600⟩ > 0 ∧
      ((Ball.handleCollision
          ⟨100, 100, -5, 0, 30, 30, 0, 0, 0.88, false, 0, true, 800, 600⟩
          ⟨160, 100, 5, 0, 30, 30, 0, 0, 0.88, false, 0, true, 800, 600⟩).1.vx =
        (-5 : ℝ) ∧
      (Ball.handleCollision
          ⟨100, 100, -5, 0, 30, 30, 0, 0, 0.88, false, 0, true, 800, 600⟩
          ⟨160, 100, 5, 0, 30, 30, 0, 0, 0.88, false, 0, true, 800, 600⟩).2.vx =
        (5 : ℝ) ∧
      (Ball.handleCollision
          ⟨100, 100, -5, 0, 30, 30, 0, 0, 0.88, false, 0, true, 800, 600⟩
          ⟨160, 100, 5, 0, 30, 30, 0, 0, 0.88, false, 0, true, 800, 600⟩).1.radius =
        (30 : ℝ)) := by
  have hsq : Real.sqrt (3600 : ℝ) = 60 := by
    rw [show (3600 : ℝ) = 60 ^ 2 by norm_num,
      Real.sqrt_sq (by norm_num : (0 : ℝ) ≤ 60)]
  have h : Ball.relNormalVelocity
      ⟨100, 100, -5, 0, 30, 30, 0, 0, 0.88, false, 0, true, 800, 600⟩
      ⟨160, 100, 5, 0, 30, 30, 0, 0, 0.88, false, 0, true, 800, 600⟩ > 0 := by
    simp only [Ball.relNormalVelocity, Ball.normalVelocities,
      Ball.collisionNormal, Ball.collisionGeometry]
    norm_num [hsq]
  obtain ⟨h1, _, h3, _, h5, _⟩ := c7_separating_skip
    ⟨100, 100, -5, 0, 30, 30, 0, 0, 0.88, false, 0, true, 800, 600⟩
    ⟨160, 100, 5, 0, 30, 30, 0, 0, 0.88, false, 0, true, 800, 600⟩ h
  exact ⟨h, h1, h3, h5⟩

/-- C4: balls of equal mass (radius 30 each) with velocities `(5,0)` and
`(-5,0)`, touching head-on on the x-axis (centers 60 apart, gap 0),
fully exchange their velocities in the elastic step of
`Ball.HandleCollision`: exactly `(-5,0)` and `(5,0)` before the damping
multiplication. -/
theorem c4_head_on_exchange :
    Ball.collisionVelocities
        ⟨100, 100, 5, 0, 30, 30, 0, 0, 0.88, false, 0, true, 800, 600⟩
        ⟨160, 100, -5, 0, 30, 30, 0, 0, 0.88, false, 0, true, 800, 600⟩ =
      ((-5, 0), (5, 0)) := by
  have hsq : Real.sqrt (3600 : ℝ) = 60 := by
    rw [show (3600 : ℝ) = 60 ^ 2 by norm_num,
      Real.sqrt_sq (by norm_num : (0 : ℝ) ≤ 60)]
  have hpi := Real.pi_ne_zero
  simp only [Ball.collisionVelocities, Ball.normalVelocities,
    Ball.collisionNormal, Ball.collisionGeometry, Ball.getMass]
  norm_num [hsq, Prod.ext_iff]
  have hM : Real.pi * 30 * 30 + Real.pi * 30 * 30 ≠ 0 := by positivity
  field_simp
  ring

/-- C5, counterexample: two overlapping radius-30 balls approaching each
other are separated to center distance 60, but the 20% "shrink" then
floors both radii at 35, so the post-call radii sum is 70: the balls end
the call overlapping by 10 relative to their post-call sizes, far more
than a small epsilon. -/
theorem c5_counterexample :
    Real.sqrt
        (((Ball.handleCollision
              ⟨100, 100, 5, 0, 30, 30, 0, 0, 0.88, false, 0, true, 800, 600⟩
              ⟨150, 100, -5, 0, 30, 30, 0, 0, 0.88, false, 0, true, 800, 600⟩).1.x -
            (Ball.handleCollision
              ⟨100, 100, 5, 0, 30, 30, 0, 0, 0.88, false, 0, true, 800, 600⟩
              ⟨150, 100, -5, 0, 30, 30, 0, 0, 0.88, false, 0, true, 800, 600⟩).2.x) ^ 2 +
          ((Ball.handleCollision
              ⟨100, 100, 5, 0, 30, 30, 0, 0, 0.88, false, 0, true, 800, 600⟩
              ⟨150, 100, -5, 0, 30, 30, 0, 0, 0.88, false, 0, true, 800, 600⟩).1.y -
            (Ball.handleCollision
              ⟨100, 100, 5, 0, 30, 30, 0, 0, 0.88, false, 0, true, 800, 600⟩
              ⟨150, 100, -5, 0, 30, 30, 0, 0, 0.88, false, 0, true, 800, 600⟩).2.y) ^ 2) = 60 ∧
      (Ball.handleCollision
          ⟨100, 100, 5, 0, 30, 30, 0, 0, 0.88, false, 0, true, 800, 600⟩
          ⟨150, 100, -5, 0, 30, 30, 0, 0, 0.88, false, 0, true, 800, 600⟩).1.radius = 35 ∧
      (Ball.handleCollision
          ⟨100, 100, 5, 0, 30, 30, 0, 0, 0.88, false, 0, true, 800, 600⟩
          ⟨150, 100, -5, 0, 30, 30, 0, 0, 0.88, false, 0, true, 800, 600⟩).2.radius = 35 := by
  have hsq : Real.sqrt (2500 : ℝ) = 50 := by
    rw [show (2500 : ℝ) = 50 ^ 2 by norm_num,
      Real.sqrt_sq (by norm_num : (0 : ℝ) ≤ 50)]
  have hpi := Real.pi_ne_zero
  have hrel : ¬ Ball.relNormalVelocity
      ⟨100, 100, 5, 0, 30, 30, 0, 0, 0.88, false, 0, true, 800, 600⟩
      ⟨150, 100, -5, 0, 30, 30, 0, 0, 0.88, false, 0, true, 800, 600⟩ > 0 := by
    simp only [Ball.relNormalVelocity, Ball.normalVelocities,
      Ball.collisionNormal, Ball.collisionGeometry]
    norm_num [hsq]
  obtain ⟨e1, e2, e3, e4⟩ := Ball.handleCollision_pos
    ⟨100, 100, 5, 0, 30, 30, 0, 0, 0.88, false, 0, true, 800, 600⟩
    ⟨150, 100, -5, 0, 30, 30, 0, 0, 0.88, false, 0, true, 800, 600⟩
  obtain ⟨r1, r2⟩ := Ball.handleCollision_radius
    ⟨100, 100, 5, 0, 30, 30, 0, 0, 0.88, false, 0, true, 800, 600⟩
    ⟨150, 100, -5, 0, 30, 30, 0, 0, 0.88, false, 0, true, 800, 600⟩ hrel
  rw [e1, e2, e3, e4, r1, r2]
  have hx1 : (Ball.separate
      ⟨100, 100, 5, 0, 30, 30, 0, 0, 0.88, false, 0, true, 800, 600⟩
      ⟨150, 100, -5, 0, 30, 30, 0, 0, 0.88, false, 0, true, 800, 600⟩).1.x = 95 := by
    simp only [Ball.separate, Ball.collisionNormal, Ball.collisionGeometry,
      Ball.getMass]
    norm_num [hsq]
    field_simp
    ring
  have hx2 : (Ball.separate
      ⟨100, 100, 5, 0, 30, 30, 0, 0, 0.88, false, 0, true, 800, 600⟩
      ⟨150, 100, -5, 0, 30, 30, 0, 0, 0.88, false, 0, true, 800, 600⟩).2.x = 155 := by
    simp only [Ball.separate, Ball.collisionNormal, Ball.collisionGeometry,
      Ball.getMass]
    norm_num [hsq]
    field_simp
    ring
  have hy1 : (Ball.separate
      ⟨100, 100, 5, 0, 30, 30, 0, 0, 0.88, false, 0, true, 800, 600⟩
      ⟨150, 100, -5, 0, 30, 30, 0, 0, 0.88, false, 0, true, 800, 600⟩).1.y = 100 := by
    simp only [Ball.separate, Ball.collisionNormal, Ball.collisionGeometry,
      Ball.getMass]
    norm_num [hsq]
  have hy2 : (Ball.separate
      ⟨100, 100, 5, 0, 30, 30, 0, 0, 0.88, false, 0, true, 800, 600⟩
      ⟨150, 100, -5, 0, 30, 30, 0, 0, 0.88, false, 0, true, 800, 600⟩).2.y = 100 := by
    simp only [Ball.separate, Ball.collisionNormal, Ball.collisionGeometry,
      Ball.getMass]
    norm_num [hsq]
  rw [hx1, hx2, hy1, hy2]
  norm_num
  rw [show (3600 : ℝ) = 60 ^ 2 by norm_num,
    Real.sqrt_sq (by norm_num : (0 : ℝ) ≤ 60)]

/-- C5, amended: for overlapping balls with distinct centers, the
separation step of `Ball.HandleCollision` always leaves the centers at
distance exactly the PRE-call sum of radii; the post-call radii may
nevertheless exceed this distance, because the 20% shrink floors each
radius at the 35-pixel minimum and thereby grows small balls. -/
theorem c5_amended (b other : Ball)
    (hm : b.getMass + other.getMass ≠ 0)
    (hd : 0 < Real.sqrt ((b.x - other.x) * (b.x - other.x) +
      (b.y - other.y) * (b.y - other.y)))
    (hov : Real.sqrt ((b.x - other.x) * (b.x - other.x) +
        (b.y - other.y) * (b.y - other.y)) < b.radius + other.radius) :
    Real.sqrt (((b.handleCollision other).1.x -
          (b.handleCollision other).2.x) ^ 2 +
        ((b.handleCollision other).1.y -
          (b.handleCollision other).2.y) ^ 2) =
      b.radius + other.radius := by
  obtain ⟨e1, e2, e3, e4⟩ := Ball.handleCollision_pos b other
  rw [e1, e2, e3, e4]
  set dx := b.x - other.x with hdx
  set dy := b.y - other.y with hdy
  set D := Real.sqrt (dx * dx + dy * dy) with hD
  have hDne : D ≠ 0 := ne_of_gt hd
  have hgeom : b.collisionGeometry other = (dx, dy, D) := by
    simp only [Ball.collisionGeometry]
    rw [if_neg hDne]
  have hdiffx : (b.separate other).1.x - (b.separate other).2.x =
      dx * ((b.radius + other.radius) / D) := by
    simp only [Ball.separate, Ball.collisionNormal, hgeom]
    rw [hdx]
    field_simp
    ring
  have hdiffy : (b.separate other).1.y - (b.separate other).2.y =
      dy * ((b.radius + other.radius) / D) := by
    simp only [Ball.separate, Ball.collisionNormal, hgeom]
    rw [hdy]
    field_simp
    ring
  rw [hdiffx, hdiffy,
    show (dx * ((b.radius + other.radius) / D)) ^ 2 +
        (dy * ((b.radius + other.radius) / D)) ^ 2 =
      ((b.radius + other.radius) / D) ^ 2 * (dx * dx + dy * dy) from by ring,
    Real.sqrt_mul (sq_nonneg _), Real.sqrt_sq_eq_abs, ← hD]
  have hR : 0 < b.radius + other.radius := lt_trans hd hov
  rw [abs_of_pos (div_pos hR hd)]
  field_simp

/-- C5, witness for the amended theorem: the two overlapping radius-30
balls of the counterexample end the call with centers exactly 60 apart
(their pre-call radii sum). -/
theorem c5_witness :
    Real.sqrt
        (((Ball.handleCollision
              ⟨200, 100, 5, 0, 30, 30, 0, 0, 0.88, false, 0, true, 800, 600⟩
              ⟨250, 100, -5, 0, 30, 30, 0, 0, 0.88, false, 0, true, 800, 600⟩).1.x -
            (Ball.handleCollision
              ⟨200, 100, 5, 0, 30, 30, 0, 0, 0.88, false, 0, true, 800, 600⟩
              ⟨250, 100, -5, 0, 30, 30, 0, 0, 0.88, false, 0, true, 800, 600⟩).2.x) ^ 2 +
          ((Ball.handleCollision
              ⟨200, 100, 5, 0, 30, 30, 0, 0, 0.88, false, 0, true, 800, 600⟩
              ⟨250, 100, -5, 0, 30, 30, 0, 0, 0.88, false, 0, true, 800, 600⟩).1.y -
            (Ball.handleCollision
              ⟨200, 100, 5, 0, 30, 30, 0, 0, 0.88, false, 0, true, 800, 600⟩
              ⟨250, 100, -5, 0, 30, 30, 0, 0, 0.88, false, 0, true, 800, 600⟩).2.y) ^ 2) =
      (30 : ℝ) + 30 := by
  have hsq : Real.sqrt (((200 : ℝ) - 250) * (200 - 250) +
      (100 - 100) * (100 - 100)) = 50 := by
    rw [show ((200 : ℝ) - 250) * (200 - 250) + (100 - 100) * (100 - 100) =
        50 ^ 2 by norm_num, Real.sqrt_sq (by norm_num : (0 : ℝ) ≤ 50)]
  exact c5_amended
    ⟨200, 100, 5, 0, 30, 30, 0, 0, 0.88, false, 0, true, 800, 600⟩
    ⟨250, 100, -5, 0, 30, 30, 0, 0, 0.88, false, 0, true, 800, 600⟩
    (by simp only [Ball.getMass]; positivity)
    (by rw [show ((⟨200, 100, 5, 0, 30, 30, 0, 0, 0.88, false, 0, true, 800, 600⟩ : Ball).x -
          (⟨250, 100, -5, 0, 30, 30, 0, 0, 0.88, false, 0, true, 800, 600⟩ : Ball).x) *
          ((⟨200, 100, 5, 0, 30, 30, 0, 0, 0.88, false, 0, true, 800, 600⟩ : Ball).x -
          (⟨250, 100, -5, 0, 30, 30, 0, 0, 0.88, false, 0, true, 800, 600⟩ : Ball).x) +
          ((⟨200, 100, 5, 0, 30, 30, 0, 0, 0.88, false, 0, true, 800, 600⟩ : Ball).y -
          (⟨250, 100, -5, 0, 30, 30, 0, 0, 0.88, false, 0, true, 800, 600⟩ : Ball).y) *
          ((⟨200, 100, 5, 0, 30, 30, 0, 0, 0.88, false, 0, true, 800, 600⟩ : Ball).y -
          (⟨250, 100, -5, 0, 30, 30, 0, 0, 0.88, false, 0, true, 800, 600⟩ : Ball).y) =
          ((200 : ℝ) - 250) * (200 - 250) + (100 - 100) * (100 - 100) from rfl,
        hsq]; norm_num)
    (by rw [show ((⟨200, 100, 5, 0, 30, 30, 0, 0, 0.88, false, 0, true, 800, 600⟩ : Ball).x -
          (⟨250, 100, -5, 0, 30, 30, 0, 0, 0.88, false, 0, true, 800, 600⟩ : Ball).x) *
          ((⟨200, 100, 5, 0, 30, 30, 0, 0, 0.88, false, 0, true, 800, 600⟩ : Ball).x -
          (⟨250, 100, -5, 0, 30, 30, 0, 0, 0.88, false, 0, true, 800, 600⟩ : Ball).x) +
          ((⟨200, 100, 5, 0, 30, 30, 0, 0, 0.88, false, 0, true, 800, 600⟩ : Ball).y -
          (⟨250, 100, -5, 0, 30, 30, 0, 0, 0.88, false, 0, true, 800, 600⟩ : Ball).y) *
          ((⟨200, 100, 5, 0, 30, 30, 0, 0, 0.88, false, 0, true, 800, 600⟩ : Ball).y -
          (⟨250, 100, -5, 0, 30, 30, 0, 0, 0.88, false, 0, true, 800, 600⟩ : Ball).y) =
          ((200 : ℝ) - 250) * (200 - 250) + (100 - 100) * (100 - 100) from rfl,
        hsq]; norm_num)

/-- C9, counterexample: a bullet exactly at the center of a ball moving at
speed 10 still counts as a hit and is deactivated, but the zero-distance
guard skips the impulse and the speed clamp, so the struck ball keeps
speed `10 > 8` after the call. -/
theorem c9_counterexample :
    bulletHits ⟨100, 100, 0, 0, true⟩
        ⟨100, 100, 10, 0, 30, 30, 0, 0, 0.88, false, 0, true, 800, 600⟩ ∧
      (resolveBulletHit ⟨100, 100, 0, 0, true⟩
          ⟨100, 100, 10, 0, 30, 30, 0, 0, 0.88, false, 0, true, 800, 600⟩).1.isActive =
        false ∧
      (8 : ℝ) < Real.sqrt
        ((resolveBulletHit ⟨100, 100, 0, 0, true⟩
              ⟨100, 100, 10, 0, 30, 30, 0, 0, 0.88, false, 0, true, 800, 600⟩).2.vx *
            (resolveBulletHit ⟨100, 100, 0, 0, true⟩
              ⟨100, 100, 10, 0, 30, 30, 0, 0, 0.88, false, 0, true, 800, 600⟩).2.vx +
          (resolveBulletHit ⟨100, 100, 0, 0, true⟩
              ⟨100, 100, 10, 0, 30, 30, 0, 0, 0.88, false, 0, true, 800, 600⟩).2.vy *
            (resolveBulletHit ⟨100, 100, 0, 0, true⟩
              ⟨100, 100, 10, 0, 30, 30, 0, 0, 0.88, false, 0, true, 800, 600⟩).2.vy) := by
  have hsq100 : Real.sqrt (100 : ℝ) = 10 := by
    rw [show (100 : ℝ) = 10 ^ 2 by norm_num,
      Real.sqrt_sq (by norm_num : (0 : ℝ) ≤ 10)]
  refine ⟨?_, ?_, ?_⟩ <;>
    norm_num [bulletHits, resolveBulletHit, Real.sqrt_zero, hsq100]

/-- C9, amended: on a hit, the bullet is always deactivated; whenever the
bullet is not exactly at the ball's center, the impulse is applied and
the struck ball's resulting speed is clamped to at most 8.  (At center
distance exactly 0 the impulse and the clamp are skipped.) -/
theorem c9_amended (bullet : Bullet) (ball : Ball)
    (hhit : bulletHits bullet ball)
    (hd : 0 < Real.sqrt ((bullet.x - ball.x) * (bullet.x - ball.x) +
      (bullet.y - ball.y) * (bullet.y - ball.y))) :
    (resolveBulletHit bullet ball).1.isActive = false ∧
      Real.sqrt ((resolveBulletHit bullet ball).2.vx *
            (resolveBulletHit bullet ball).2.vx +
          (resolveBulletHit bullet ball).2.vy *
            (resolveBulletHit bullet ball).2.vy) ≤ 8 := by
  constructor
  · simp only [resolveBulletHit]
    split_ifs <;> rfl
  · simp only [resolveBulletHit]
    rw [if_pos hd]
    simp only [Ball.triggerJiggle]
    set dx := bullet.x - ball.x with hdx
    set dy := bullet.y - ball.y with hdy
    set D := Real.sqrt (dx * dx + dy * dy) with hD
    set vx1 := ball.vx + -dx / D * 0.8 with hvx1
    set vy1 := ball.vy + -dy / D * 0.8 with hvy1
    set cs := Real.sqrt (vx1 * vx1 + vy1 * vy1) with hcs
    split_ifs with hgt
    · have hcs0 : (0 : ℝ) < cs := lt_trans (by norm_num) hgt
      simp only
      rw [show vx1 / cs * 8 * (vx1 / cs * 8) + vy1 / cs * 8 * (vy1 / cs * 8) =
          (8 / cs) ^ 2 * (vx1 * vx1 + vy1 * vy1) from by ring,
        Real.sqrt_mul (sq_nonneg _), Real.sqrt_sq_eq_abs, ← hcs,
        abs_of_pos (by positivity : (0 : ℝ) < 8 / cs),
        div_mul_cancel₀ _ (ne_of_gt hcs0)]
    · simp only
      rw [← hcs]
      linarith [not_lt.mp hgt]

/-- C9, witness for the amended theorem: a bullet 30 pixels right of a
stationary radius-30 ball hits it, gets deactivated, and leaves the ball
at speed at most 8. -/
theorem c9_witness :
    bulletHits ⟨130, 100, 0, 0, true⟩
        ⟨100, 100, 0, 0, 30, 30, 0, 0, 0.88, false, 0, true, 800, 600⟩ ∧
      ((resolveBulletHit ⟨130, 100, 0, 0, true⟩
          ⟨100, 100, 0, 0, 30, 30, 0, 0, 0.88, false, 0, true, 800, 600⟩).1.isActive =
        false ∧
      Real.sqrt
          ((resolveBulletHit ⟨130, 100, 0, 0, true⟩
                ⟨100, 100, 0, 0, 30, 30, 0, 0, 0.88, false, 0, true, 800, 600⟩).2.vx *
              (resolveBulletHit ⟨130, 100, 0, 0, true⟩
                ⟨100, 100, 0, 0, 30, 30, 0, 0, 0.88, false, 0, true, 800, 600⟩).2.vx +
            (resolveBulletHit ⟨130, 100, 0, 0, true⟩
                ⟨100, 100, 0, 0, 30, 30, 0, 0, 0.88, false, 0, true, 800, 600⟩).2.vy *
              (resolveBulletHit ⟨130, 100, 0, 0, true⟩
                ⟨100, 100, 0, 0, 30, 30, 0, 0, 0.88, false, 0, true, 800, 600⟩).2.vy) ≤ 8) := by
  have hsq900 : Real.sqrt (((130 : ℝ) - 100) * (130 - 100) +
      (100 - 100) * (100 - 100)) = 30 := by
    rw [show ((130 : ℝ) - 100) * (130 - 100) + (100 - 100) * (100 - 100) =
        30 ^ 2 by norm_num, Real.sqrt_sq (by norm_num : (0 : ℝ) ≤ 30)]
  have hhit : bulletHits ⟨130, 100, 0, 0, true⟩
      ⟨100, 100, 0, 0, 30, 30, 0, 0, 0.88, false, 0, true, 800, 600⟩ := by
    simp only [bulletHits]
    rw [hsq900]
    norm_num
  exact ⟨hhit, c9_amended ⟨130, 100, 0, 0, true⟩
    ⟨100, 100, 0, 0, 30, 30, 0, 0, 0.88, false, 0, true, 800, 600⟩ hhit
    (by rw [hsq900]; norm_num)⟩

/-- C10, counterexample: `shrinkBall(0.8)` does not increase the radius of
every ball below 43.75: a radius-40 ball (below 43.75) is shrunk to the
35 floor, a strict decrease. -/
theorem c10_counterexample :
    (Ball.mk 100 100 0 0 40 40 0 0 0.88 false 0 true 800 600).radius <
        (43.75 : ℝ) ∧
      (Ball.shrinkBall ⟨100, 100, 0, 0, 40, 40, 0, 0, 0.88, false, 0, true, 800, 600⟩
          0.8).radius <
        (Ball.mk 100 100 0 0 40 40 0 0 0.88 false 0 true 800 600).radius := by
  rw [Ball.shrinkBall_radius]
  norm_num

/-- C10, amended: `shrinkBall(factor)` sets the radius to `radius*factor`
floored at 35; consequently the 20% shrink increases the radius only of
balls currently below 35 (not below 43.75), and every ball whose
collision is actually resolved (not skipped as separating) ends
`Ball.HandleCollision` with radius at least 35. -/
theorem c10_amended (b other : Ball) (f : ℝ)
    (h : ¬ b.relNormalVelocity other > 0) :
    ((b.shrinkBall f).radius =
        if b.radius * f < 35 then 35 else b.radius * f) ∧
      (b.radius < 35 → b.radius < (b.shrinkBall 0.8).radius) ∧
      35 ≤ (b.shrinkBall 0.8).radius ∧
      35 ≤ (b.handleCollision other).1.radius ∧
      35 ≤ (b.handleCollision other).2.radius := by
  obtain ⟨r1, r2⟩ := Ball.handleCollision_radius b other h
  refine ⟨Ball.shrinkBall_radius b f, ?_, ?_, ?_, ?_⟩
  · intro hlt
    rw [Ball.shrinkBall_radius]
    split_ifs with hc
    · exact hlt
    · nlinarith
  · rw [Ball.shrinkBall_radius]
    split_ifs with hc
    · exact le_refl 35
    · linarith [not_lt.mp hc]
  · rw [r1]
    split_ifs with hc
    · exact le_refl 35
    · linarith [not_lt.mp hc]
  · rw [r2]
    split_ifs with hc
    · exact le_refl 35
    · linarith [not_lt.mp hc]

/-- C10, witness for the amended theorem: a coincident approaching pair of
radius-30 balls is resolved (not skipped); the 20% shrink takes the
radius-30 ball to the 35 floor, and both collision participants end with
radius at least 35. -/
theorem c10_witness :
    (¬ Ball.relNormalVelocity
        ⟨100, 100, -5, 0, 30, 30, 0, 0, 0.88, false, 0, true, 800, 600⟩
        ⟨100, 100, 5, 0, 30, 30, 0, 0, 0.88, false, 0, true, 800, 600⟩ > 0) ∧
      (Ball.shrinkBall ⟨100, 100, -5, 0, 30, 30, 0, 0, 0.88, false, 0, true, 800, 600⟩
          0.8).radius = 35 ∧
      35 ≤ (Ball.handleCollision
          ⟨100, 100, -5, 0, 30, 30, 0, 0, 0.88, false, 0, true, 800, 600⟩
          ⟨100, 100, 5, 0, 30, 30, 0, 0, 0.88, false, 0, true, 800, 600⟩).1.radius := by
  have hrel : ¬ Ball.relNormalVelocity
      ⟨100, 100, -5, 0, 30, 30, 0, 0, 0.88, false, 0, true, 800, 600⟩
      ⟨100, 100, 5, 0, 30, 30, 0, 0, 0.88, false, 0, true, 800, 600⟩ > 0 := by
    simp only [Ball.relNormalVelocity, Ball.normalVelocities,
      Ball.collisionNormal, Ball.collisionGeometry]
    norm_num [Real.sqrt_zero]
  have h := c10_amended
    ⟨100, 100, -5, 0, 30, 30, 0, 0, 0.88, false, 0, true, 800, 600⟩
    ⟨100, 100, 5, 0, 30, 30, 0, 0, 0.88, false, 0, true, 800, 600⟩ 0.8 hrel
  refine ⟨hrel, ?_, h.2.2.2.1⟩
  rw [h.1]
  norm_num

end BouncingBalls

end
